import Mathlib

/-!
Verification of the GTFS ingestion pipeline and spatial query layer of the
Webmapping repository (`transport_api`).

The Python sources are shallowly embedded:
* `gtfs_parser.py` (class `GTFSParser`): each `parse_*` generator becomes a
  pure function over a list of raw CSV rows.  A CSV field that Python pushes
  through `float(...)` / `int(...)` / `strptime(...)` is carried at the
  outcome granularity of that conversion: `Option Rat` / `Option Int` where
  `none` is the raised-and-caught conversion error.  A field absent from the
  row defaults (via `row.get(key, default)`) exactly as in the source, so a
  missing `stop_lat` appears as `some 0` (Python `float(0)`).
* `management/commands/fetch_transport_data.py` (class `Command`): each
  `fetch_*_from_gtfs` loader becomes a function from a `Store` (the database)
  and the parsed record stream to the updated `Store` plus its reported
  counters.  `bulk_create(..., ignore_conflicts=True)` becomes `insertIgnore`,
  which appends a row only when no persisted row has the same value of the
  model's uniqueness key.  Batch flushing at `batch_size` only groups database
  round trips and never changes which rows reach the table or the counters, so
  the loop is embedded as a single pass over the record stream.
* `views.py` `StopViewSet.in_bounds`: `Stop.objects.filter(location__within=
  bounds)` delegates to the OGC/PostGIS `ST_Within` predicate, embedded for a
  point against the axis-aligned rectangle polygon the view builds.
-/

namespace Webmapping

/-! ## Feed Reader (`gtfs_parser.py`) -/

/-- Raw CSV row of `stops.txt`.  `stop_lat` / `stop_lon` hold the outcome of
Python `float(row.get('stop_lat', 0))`: `none` is a `ValueError` (caught by
the parser, row skipped); a field missing from the row defaults to `0`, hence
appears here as `some 0`. -/
structure RawStopRow where
  stop_id : String
  stop_code : String
  stop_name : String
  stop_desc : String
  stop_lat : Option Rat
  stop_lon : Option Rat
  location_type : String
  parent_station : Option String
deriving DecidableEq

/-- Record yielded by `GTFSParser.parse_stops`. -/
structure StopRecord where
  stop_id : String
  stop_code : String
  stop_name : String
  stop_desc : String
  stop_lat : Rat
  stop_lon : Rat
  location_type : String
  parent_station : Option String
deriving DecidableEq

/-- Row loop of `parse_stops`: a row whose latitude or longitude fails to
parse is skipped (`ValueError` → `continue`), and a row where either parses
to exactly `0` is skipped (`if lat == 0 or lon == 0: continue`). -/
def parseStopsRows (rows : List RawStopRow) : List StopRecord :=
  rows.filterMap fun r =>
    match r.stop_lat, r.stop_lon with
    | some lat, some lon =>
        if lat = 0 ∨ lon = 0 then none
        else some { stop_id := r.stop_id, stop_code := r.stop_code,
                    stop_name := r.stop_name, stop_desc := r.stop_desc,
                    stop_lat := lat, stop_lon := lon,
                    location_type := r.location_type,
                    parent_station := r.parent_station }
    | _, _ => none

/-- Record yielded by `GTFSParser.parse_routes` (all fields are taken from the
row as strings with `.get` defaults; no row is ever dropped). -/
structure RouteRecord where
  route_id : String
  route_short_name : String
  route_long_name : String
  route_type : String
  operator : String
deriving DecidableEq

/-- Record yielded by `GTFSParser.parse_trips`.  `direction_id` and
`wheelchair_accessible` are numeric strings (defaults `'0'`) which the trips
loader later pushes through `int(...)`; they are carried at that conversion's
outcome granularity (`none` = the loader's caught `ValueError`). -/
structure TripRecord where
  route_id : String
  service_id : String
  trip_id : String
  trip_headsign : String
  direction_id : Option Int
  shape_id : String
  wheelchair_accessible : Option Int
deriving DecidableEq

/-- Raw CSV row of `stop_times.txt`.  `stop_sequence` holds the outcome of
the parser's `int(row.get('stop_sequence', 0))` (`none` = `ValueError`, row
skipped).  `arrival_time` / `departure_time` are `HH:MM:SS` strings that the
loader later pushes through `strptime`; they are carried at that outcome
granularity as seconds-of-day (`none` = empty or unparseable).  `pickup_type`
and `drop_off_type` are numeric strings (defaults `'0'`) carried at the
outcome of the loader's `int(...)`. -/
structure RawStopTimeRow where
  trip_id : String
  stop_id : String
  stop_sequence : Option Int
  arrival_time : Option Int
  departure_time : Option Int
  stop_headsign : String
  pickup_type : Option Int
  drop_off_type : Option Int
deriving DecidableEq

/-- Record yielded by `GTFSParser.parse_stop_times`. -/
structure StopTimeRecord where
  trip_id : String
  stop_id : String
  stop_sequence : Int
  arrival_time : Option Int
  departure_time : Option Int
  stop_headsign : String
  pickup_type : Option Int
  drop_off_type : Option Int
deriving DecidableEq

/-- Row loop of `parse_stop_times`: a row whose `stop_sequence` fails
`int(...)` is skipped, everything else is passed through. -/
def parseStopTimesRows (rows : List RawStopTimeRow) : List StopTimeRecord :=
  rows.filterMap fun r =>
    match r.stop_sequence with
    | some sq =>
        some { trip_id := r.trip_id, stop_id := r.stop_id, stop_sequence := sq,
               arrival_time := r.arrival_time, departure_time := r.departure_time,
               stop_headsign := r.stop_headsign, pickup_type := r.pickup_type,
               drop_off_type := r.drop_off_type }
    | none => none

/-- Record yielded by `GTFSParser.parse_agencies` (string fields with `.get`
defaults; no row is ever dropped). -/
structure AgencyRecord where
  agency_id : String
  agency_name : String
  agency_url : String
  agency_timezone : String
  agency_lang : String
  agency_phone : String
  agency_fare_url : String
deriving DecidableEq

/-- Raw CSV row of `calendar.txt`.  The weekday fields are the raw strings
(`row.get('monday', '0')` etc.); `start_date` / `end_date` hold the outcome of
`datetime.strptime(..., '%Y%m%d')` as a day ordinal (`none` = `ValueError` or
`TypeError`, in which case the parser substitutes `date.today()`). -/
structure RawCalendarRow where
  service_id : String
  monday : String
  tuesday : String
  wednesday : String
  thursday : String
  friday : String
  saturday : String
  sunday : String
  start_date : Option Int
  end_date : Option Int
deriving DecidableEq

/-- Record yielded by `GTFSParser.parse_calendars`; also the shape of the
`Calendar` model row the loader persists (the loader passes every field
through unchanged).  Dates are day ordinals. -/
structure CalendarRow where
  service_id : String
  monday : Bool
  tuesday : Bool
  wednesday : Bool
  thursday : Bool
  friday : Bool
  saturday : Bool
  sunday : Bool
  start_date : Int
  end_date : Int
deriving DecidableEq

/-- Row loop of `parse_calendars`, parameterised by `today` (the current
processing date, `date.today()`).  Each weekday flag is the string comparison
`== '1'`; an unparseable date falls back to `today`.  The outer
`try/except (ValueError, KeyError)` in the source is unreachable because both
date conversions are guarded by inner handlers and `.get` never raises, so
every row yields a record. -/
def parseCalendarsRows (today : Int) (rows : List RawCalendarRow) : List CalendarRow :=
  rows.map fun r =>
    { service_id := r.service_id,
      monday := r.monday == "1", tuesday := r.tuesday == "1",
      wednesday := r.wednesday == "1", thursday := r.thursday == "1",
      friday := r.friday == "1", saturday := r.saturday == "1",
      sunday := r.sunday == "1",
      start_date := r.start_date.getD today,
      end_date := r.end_date.getD today }

/-- Raw CSV row of `shapes.txt`: coordinates at `float(...)` outcome
granularity and the sequence at `int(...)` outcome granularity (defaults `0`
when the field is missing). -/
structure RawShapeRow where
  shape_id : String
  shape_pt_lat : Option Rat
  shape_pt_lon : Option Rat
  shape_pt_sequence : Option Int
deriving DecidableEq

/-- Record yielded by `GTFSParser.parse_shapes`. -/
structure ShapeRecord where
  shape_id : String
  shape_pt_lat : Rat
  shape_pt_lon : Rat
  shape_pt_sequence : Int
deriving DecidableEq

/-- Row loop of `parse_shapes`: a row where any numeric conversion fails is
skipped (`ValueError` → `continue`). -/
def parseShapesRows (rows : List RawShapeRow) : List ShapeRecord :=
  rows.filterMap fun r =>
    match r.shape_pt_lat, r.shape_pt_lon, r.shape_pt_sequence with
    | some lat, some lon, some sq =>
        some { shape_id := r.shape_id, shape_pt_lat := lat,
               shape_pt_lon := lon, shape_pt_sequence := sq }
    | _, _, _ => none

/-- The GTFS directory handed to `GTFSParser`: `path` is the folder path and
each `*File` field is `none` when that file does not exist on disk, `some rows`
when it does. -/
structure GtfsDir where
  path : String
  stopsFile : Option (List RawStopRow)
  routesFile : Option (List RouteRecord)
  tripsFile : Option (List TripRecord)
  stopTimesFile : Option (List RawStopTimeRow)
  agencyFile : Option (List AgencyRecord)
  calendarFile : Option (List RawCalendarRow)
  shapesFile : Option (List RawShapeRow)

/-- `GTFSParser.parse_stops`: raises `FileNotFoundError` when `stops.txt` is
absent, otherwise streams the filtered rows. -/
def parseStops (d : GtfsDir) : Except String (List StopRecord) :=
  match d.stopsFile with
  | none => .error ("stops.txt not found at " ++ d.path ++ "/stops.txt")
  | some rows => .ok (parseStopsRows rows)

/-- `GTFSParser.parse_routes`: raises when `routes.txt` is absent; the row
loop itself drops nothing (its `except KeyError` is unreachable). -/
def parseRoutes (d : GtfsDir) : Except String (List RouteRecord) :=
  match d.routesFile with
  | none => .error ("routes.txt not found at " ++ d.path ++ "/routes.txt")
  | some rows => .ok rows

/-- `GTFSParser.parse_trips`: raises when `trips.txt` is absent; the row loop
itself drops nothing. -/
def parseTrips (d : GtfsDir) : Except String (List TripRecord) :=
  match d.tripsFile with
  | none => .error ("trips.txt not found at " ++ d.path ++ "/trips.txt")
  | some rows => .ok rows

/-- `GTFSParser.parse_stop_times`: raises when `stop_times.txt` is absent. -/
def parseStopTimes (d : GtfsDir) : Except String (List StopTimeRecord) :=
  match d.stopTimesFile with
  | none => .error ("stop_times.txt not found at " ++ d.path ++ "/stop_times.txt")
  | some rows => .ok (parseStopTimesRows rows)

/-- `GTFSParser.parse_agencies`: a missing `agency.txt` silently yields zero
records (`return` before the loop). -/
def parseAgencies (d : GtfsDir) : List AgencyRecord :=
  match d.agencyFile with
  | none => []
  | some rows => rows

/-- `GTFSParser.parse_calendars`: a missing `calendar.txt` silently yields
zero records. -/
def parseCalendars (today : Int) (d : GtfsDir) : List CalendarRow :=
  match d.calendarFile with
  | none => []
  | some rows => parseCalendarsRows today rows

/-- `GTFSParser.parse_shapes`: a missing `shapes.txt` silently yields zero
records. -/
def parseShapes (d : GtfsDir) : List ShapeRecord :=
  match d.shapesFile with
  | none => []
  | some rows => parseShapesRows rows

/-! ## Persistent store (`models.py` rows) -/

/-- A persisted `Stop` model row.  `location` is the `Point(lon, lat)` pair in
GIS order.  Uniqueness key: `stop_id`. -/
structure StopRow where
  stop_id : String
  stop_code : String
  stop_name : String
  stop_desc : String
  location : Rat × Rat
  stop_type : String
  wheelchair_boarding : Bool
deriving DecidableEq

/-- A persisted `Route` model row.  Uniqueness key: `route_id`. -/
structure RouteRow where
  route_id : String
  route_short_name : String
  route_long_name : String
  route_type : String
  operator : String
deriving DecidableEq

/-- A persisted `Trip` model row.  The `route` foreign key is held by its
external id (the loader resolves it from the pre-cached `route_map`, so it is
never null).  Uniqueness key: `trip_id`. -/
structure TripRow where
  trip_id : String
  route_id : String
  service_id : String
  trip_headsign : String
  direction_id : Int
  shape_id : String
  wheelchair_accessible : Bool
deriving DecidableEq

/-- A persisted `StopTime` model row; the `trip` and `stop` foreign keys are
held by their external ids.  Uniqueness key: `(trip, stop_sequence)`. -/
structure StopTimeRow where
  trip_id : String
  stop_id : String
  stop_sequence : Int
  arrival_time : Option Int
  departure_time : Option Int
  stop_headsign : String
  pickup_type : Int
  drop_off_type : Int
deriving DecidableEq

/-- A persisted `Shape` model row: one assembled polyline (the geometry is the
`LineString` coordinate list, GIS `(lon, lat)` order).  Uniqueness key:
`(shape_id, sequence)`; the loader always writes `sequence = 1`. -/
structure ShapeRow where
  shape_id : String
  geometry : List (Rat × Rat)
  sequence : Int
deriving DecidableEq

/-- A persisted `Agency` model row.  Uniqueness key: `agency_id`. -/
structure AgencyRow where
  agency_id : String
  agency_name : String
  agency_url : String
  agency_timezone : String
  agency_lang : String
  agency_phone : String
deriving DecidableEq

/-- The relational store: one table per model touched by the GTFS pipeline. -/
@[ext] structure Store where
  agencies : List AgencyRow
  calendars : List CalendarRow
  stops : List StopRow
  routes : List RouteRow
  trips : List TripRow
  stopTimes : List StopTimeRow
  shapes : List ShapeRow
deriving DecidableEq

/-- `bulk_create(rows, ignore_conflicts=True)`: insert each row in stream
order, silently dropping a row whose uniqueness-key value is already present
(whether from an earlier run or from earlier in the same stream). -/
def insertIgnore {α κ : Type} [DecidableEq κ] (key : α → κ) (t : List α) :
    List α → List α
  | [] => t
  | r :: rs =>
      if key r ∈ t.map key then insertIgnore key t rs
      else insertIgnore key (t ++ [r]) rs

/-- Route-id snapshot: `route_map = {r.route_id: r for r in Route.objects.all()}`,
of which the trips loader only consults the key set. -/
def routeKeys (s : Store) : List String := s.routes.map RouteRow.route_id

/-- Trip-id snapshot used by the stop-times loader. -/
def tripKeys (s : Store) : List String := s.trips.map TripRow.trip_id

/-- Stop-id snapshot used by the stop-times loader. -/
def stopKeys (s : Store) : List String := s.stops.map StopRow.stop_id

/-! ## Batch loaders (`fetch_transport_data.py`) -/

/-- The `Stop(...)` constructed by `fetch_stops_from_gtfs`.  The loader reads
the keys `stop_type` and `wheelchair_boarding`, which `parse_stops` never
emits, so they always take their defaults (`'stop'` and
`bool(int(0)) = False`). -/
def stopRowOfRecord (r : StopRecord) : StopRow :=
  { stop_id := r.stop_id, stop_code := r.stop_code, stop_name := r.stop_name,
    stop_desc := r.stop_desc, location := (r.stop_lon, r.stop_lat),
    stop_type := "stop", wheelchair_boarding := false }

/-- `fetch_stops_from_gtfs`: buffer every parsed stop, bulk-insert with
conflicts ignored, and report `created_count` (incremented by the full buffer
length at each flush). -/
def fetchStopsFromGtfs (s : Store) (recs : List StopRecord) : Store × Nat :=
  let rows := recs.map stopRowOfRecord
  ({ s with stops := insertIgnore StopRow.stop_id s.stops rows }, rows.length)

/-- The `Route(...)` constructed by `fetch_routes_from_gtfs`. -/
def routeRowOfRecord (r : RouteRecord) : RouteRow :=
  { route_id := r.route_id, route_short_name := r.route_short_name,
    route_long_name := r.route_long_name, route_type := r.route_type,
    operator := r.operator }

/-- `fetch_routes_from_gtfs`. -/
def fetchRoutesFromGtfs (s : Store) (recs : List RouteRecord) : Store × Nat :=
  let rows := recs.map routeRowOfRecord
  ({ s with routes := insertIgnore RouteRow.route_id s.routes rows }, rows.length)

/-- The `Agency(...)` constructed by `fetch_agencies_from_gtfs` (it does not
set `agency_fare_url`). -/
def agencyRowOfRecord (r : AgencyRecord) : AgencyRow :=
  { agency_id := r.agency_id, agency_name := r.agency_name,
    agency_url := r.agency_url, agency_timezone := r.agency_timezone,
    agency_lang := r.agency_lang, agency_phone := r.agency_phone }

/-- `fetch_agencies_from_gtfs`. -/
def fetchAgenciesFromGtfs (s : Store) (recs : List AgencyRecord) : Store × Nat :=
  let rows := recs.map agencyRowOfRecord
  ({ s with agencies := insertIgnore AgencyRow.agency_id s.agencies rows },
   rows.length)

/-- `fetch_calendars_from_gtfs` (every parsed field passes straight into the
`Calendar` model row). -/
def fetchCalendarsFromGtfs (s : Store) (recs : List CalendarRow) : Store × Nat :=
  ({ s with calendars := insertIgnore CalendarRow.service_id s.calendars recs },
   recs.length)

/-- Record loop of `fetch_trips_from_gtfs`, written as structural recursion
over the parsed stream.  A record whose `route_id` misses the snapshot is
counted as skipped and produces nothing; otherwise the `Trip(...)`
construction runs, whose `int(...)` conversions may raise — that record is
dropped by the `except` handler without touching either counter's skip part.
Returns the buffered rows (in stream order) and the skipped count. -/
def buildTripRows (routeIds : List String) :
    List TripRecord → List TripRow × Nat
  | [] => ([], 0)
  | r :: rs =>
      if r.route_id ∈ routeIds then
        match r.direction_id, r.wheelchair_accessible with
        | some d, some w =>
            let p := buildTripRows routeIds rs
            ({ trip_id := r.trip_id, route_id := r.route_id,
               service_id := r.service_id, trip_headsign := r.trip_headsign,
               direction_id := d, shape_id := r.shape_id,
               wheelchair_accessible := w != 0 } :: p.1, p.2)
        | _, _ => buildTripRows routeIds rs
      else
        let p := buildTripRows routeIds rs
        (p.1, p.2 + 1)

/-- `fetch_trips_from_gtfs`: pre-cache the route-id snapshot, run the record
loop, bulk-insert with conflicts ignored; returns the store, the reported
created count and the reported skipped count. -/
def fetchTripsFromGtfs (s : Store) (recs : List TripRecord) :
    Store × Nat × Nat :=
  let p := buildTripRows (routeKeys s) recs
  ({ s with trips := insertIgnore TripRow.trip_id s.trips p.1 },
   p.1.length, p.2)

/-- Record loop of `fetch_stop_times_from_gtfs`: a record whose `trip_id` or
`stop_id` misses the snapshots is counted as skipped; otherwise the
`StopTime(...)` construction runs and its `int(...)` conversions on
`pickup_type` / `drop_off_type` may raise, dropping that record without
incrementing the skip counter. -/
def buildStopTimeRows (tripIds stopIds : List String) :
    List StopTimeRecord → List StopTimeRow × Nat
  | [] => ([], 0)
  | r :: rs =>
      if r.trip_id ∈ tripIds ∧ r.stop_id ∈ stopIds then
        match r.pickup_type, r.drop_off_type with
        | some pu, some dr =>
            let p := buildStopTimeRows tripIds stopIds rs
            ({ trip_id := r.trip_id, stop_id := r.stop_id,
               stop_sequence := r.stop_sequence,
               arrival_time := r.arrival_time,
               departure_time := r.departure_time,
               stop_headsign := r.stop_headsign,
               pickup_type := pu, drop_off_type := dr } :: p.1, p.2)
        | _, _ => buildStopTimeRows tripIds stopIds rs
      else
        let p := buildStopTimeRows tripIds stopIds rs
        (p.1, p.2 + 1)

/-- `fetch_stop_times_from_gtfs`. -/
def fetchStopTimesFromGtfs (s : Store) (recs : List StopTimeRecord) :
    Store × Nat × Nat :=
  let p := buildStopTimeRows (tripKeys s) (stopKeys s) recs
  ({ s with stopTimes :=
      insertIgnore (fun st => (st.trip_id, st.stop_sequence)) s.stopTimes p.1 },
   p.1.length, p.2)

/-! ## Shape Assembler (`fetch_shapes_from_gtfs`) -/

/-- In-place update of the inner Python dict
`shapes_dict[shape_id][sequence] = (lon, lat)`: replace the binding if the
sequence key exists (keeping its position), else append it. -/
def updateSeq : List (Int × (Rat × Rat)) → Int → Rat × Rat →
    List (Int × (Rat × Rat))
  | [], sq, c => [(sq, c)]
  | (k, v) :: t, sq, c =>
      if k = sq then (sq, c) :: t else (k, v) :: updateSeq t sq c

/-- First-match lookup in an association list (Python dict access). -/
def lookupSeq (inner : List (Int × (Rat × Rat))) (sq : Int) : Option (Rat × Rat) :=
  match inner with
  | [] => none
  | (k, v) :: t => if k = sq then some v else lookupSeq t sq

/-- One iteration of the point-collection loop: update the entry of
`shape_data['shape_id']` in the outer dict (first occurrence creates the
entry, later ones update it in place).  Python dicts keep first-insertion
order, embedded as an association list updated at its first matching key. -/
def addShapePoint (acc : List (String × List (Int × (Rat × Rat))))
    (r : ShapeRecord) : List (String × List (Int × (Rat × Rat))) :=
  match acc with
  | [] => [(r.shape_id, [(r.shape_pt_sequence, (r.shape_pt_lon, r.shape_pt_lat))])]
  | (sid, inner) :: t =>
      if sid = r.shape_id then
        (sid, updateSeq inner r.shape_pt_sequence (r.shape_pt_lon, r.shape_pt_lat)) :: t
      else (sid, inner) :: addShapePoint t r

/-- The fully collected `shapes_dict`: `{shape_id: {sequence: (lon, lat)}}`. -/
def groupShapePoints (recs : List ShapeRecord) :
    List (String × List (Int × (Rat × Rat))) :=
  recs.foldl addShapePoint []

/-- The inner dict of one shape id (`{}` when the shape id is absent). -/
def innerOf (acc : List (String × List (Int × (Rat × Rat)))) (sid : String) :
    List (Int × (Rat × Rat)) :=
  match acc with
  | [] => []
  | (k, inner) :: t => if k = sid then inner else innerOf t sid

/-- `sorted_sequences = sorted(points_dict.keys())` followed by
`coordinates = [points_dict[seq] for seq in sorted_sequences]`. -/
def shapeCoords (inner : List (Int × (Rat × Rat))) : List (Rat × Rat) :=
  (List.insertionSort (fun a b : Int => a ≤ b) (inner.map Prod.fst)).filterMap
    (lookupSeq inner)

/-- One iteration of the geometry-materialisation loop: the `Shape` row (with
`sequence = 1`) built for one entry of `shapes_dict` when its sorted
coordinate list has at least two points (`if len(coordinates) >= 2`), nothing
otherwise. -/
def assembleRowOf (e : String × List (Int × (Rat × Rat))) : Option ShapeRow :=
  if 2 ≤ (shapeCoords e.2).length then
    some { shape_id := e.1, geometry := shapeCoords e.2, sequence := 1 }
  else none

/-- Geometry-materialisation loop of `fetch_shapes_from_gtfs`: one `Shape`
row per shape id with at least two sequenced points; shorter shapes produce
nothing. -/
def assembleShapes (recs : List ShapeRecord) : List ShapeRow :=
  (groupShapePoints recs).filterMap assembleRowOf

/-- `fetch_shapes_from_gtfs`: collect, assemble, bulk-insert with conflicts
ignored, report the buffer length as the created count. -/
def fetchShapesFromGtfs (s : Store) (recs : List ShapeRecord) : Store × Nat :=
  let rows := assembleShapes recs
  ({ s with shapes :=
      insertIgnore (fun r => (r.shape_id, r.sequence)) s.shapes rows },
   rows.length)

/-! ## Claim-side descriptions of the Shape Assembler (from the spec text) -/

/-- Sequence numbers appearing in the stream for one shape id. -/
def seqsOf (recs : List ShapeRecord) (sid : String) : List Int :=
  (recs.filter fun r => r.shape_id = sid).map ShapeRecord.shape_pt_sequence

/-- The last coordinate pair seen in the stream for a given shape id and
sequence number (the spec's "last write wins"). -/
def lastCoordAt (recs : List ShapeRecord) (sid : String) (sq : Int) :
    Option (Rat × Rat) :=
  match recs with
  | [] => none
  | r :: rs =>
      match lastCoordAt rs sid sq with
      | some c => some c
      | none =>
          if r.shape_id = sid ∧ r.shape_pt_sequence = sq then
            some (r.shape_pt_lon, r.shape_pt_lat)
          else none

/-- Number of distinct sequence numbers for one shape id. -/
def distinctSeqCount (recs : List ShapeRecord) (sid : String) : Nat :=
  (seqsOf recs sid).dedup.length

/-- The polyline the spec describes: deduplicated coordinates (last write
wins) ordered by ascending sequence number. -/
def specShapePolyline (recs : List ShapeRecord) (sid : String) : List (Rat × Rat) :=
  (List.insertionSort (fun a b : Int => a ≤ b) (seqsOf recs sid).dedup).filterMap
    (lastCoordAt recs sid)

/-! ## Run driver (`Command.handle`, `load_all` path)

Each `fetch_*_from_gtfs` wraps its whole body in `try/except`, so the
`FileNotFoundError` a required-file parser raises on its first iteration is
caught inside that stage before any row is buffered or written: the stage is a
no-op and the run continues with the next entity.  The stages run in
dependency order: agencies, calendars, stops, routes, trips, stop times,
shapes. -/

/-- Agencies stage. -/
def stageAgencies (s : Store) (d : GtfsDir) : Store :=
  (fetchAgenciesFromGtfs s (parseAgencies d)).1

/-- Calendars stage. -/
def stageCalendars (today : Int) (s : Store) (d : GtfsDir) : Store :=
  (fetchCalendarsFromGtfs s (parseCalendars today d)).1

/-- Stops stage (no-op when `stops.txt` is missing). -/
def stageStops (s : Store) (d : GtfsDir) : Store :=
  match parseStops d with
  | .error _ => s
  | .ok recs => (fetchStopsFromGtfs s recs).1

/-- Routes stage (no-op when `routes.txt` is missing). -/
def stageRoutes (s : Store) (d : GtfsDir) : Store :=
  match parseRoutes d with
  | .error _ => s
  | .ok recs => (fetchRoutesFromGtfs s recs).1

/-- Trips stage (no-op when `trips.txt` is missing). -/
def stageTrips (s : Store) (d : GtfsDir) : Store :=
  match parseTrips d with
  | .error _ => s
  | .ok recs => (fetchTripsFromGtfs s recs).1

/-- Stop-times stage (no-op when `stop_times.txt` is missing). -/
def stageStopTimes (s : Store) (d : GtfsDir) : Store :=
  match parseStopTimes d with
  | .error _ => s
  | .ok recs => (fetchStopTimesFromGtfs s recs).1

/-- Shapes stage. -/
def stageShapes (s : Store) (d : GtfsDir) : Store :=
  (fetchShapesFromGtfs s (parseShapes d)).1

/-- The full `load_all` ingestion run of `Command.handle`. -/
def runIngestion (today : Int) (s : Store) (d : GtfsDir) : Store :=
  stageShapes
    (stageStopTimes
      (stageTrips
        (stageRoutes
          (stageStops
            (stageCalendars today (stageAgencies s d) d) d) d) d) d) d

/-- Total persisted row count across all tables of the pipeline. -/
def totalRows (s : Store) : Nat :=
  s.agencies.length + s.calendars.length + s.stops.length + s.routes.length +
    s.trips.length + s.stopTimes.length + s.shapes.length

/-- Referential integrity of the stop-times table: every persisted `StopTime`
resolves its trip and its stop against the persisted tables. -/
def storeWellFormed (s : Store) : Prop :=
  ∀ st ∈ s.stopTimes, st.trip_id ∈ tripKeys s ∧ st.stop_id ∈ stopKeys s

/-! ## Bounding-box endpoint (`StopViewSet.in_bounds`, `views.py`) -/

/-- The four query bounds, already coerced by `float(...)`. -/
structure BBox where
  min_lat : Rat
  max_lat : Rat
  min_lon : Rat
  max_lon : Rat
deriving DecidableEq

/-- `location__within=bounds` where `bounds` is the rectangle `Polygon` the
view builds from the four corners.  GeoDjango's `within` lookup is the OGC
`ST_Within` predicate, under which a point is within a polygon only when it
intersects the polygon's interior — a point lying exactly on the rectangle's
boundary is NOT within it.  For a non-degenerate axis-aligned rectangle that
is strict containment in both coordinates. -/
def pointWithinRect (p : Rat × Rat) (b : BBox) : Bool :=
  (b.min_lon < p.1 && p.1 < b.max_lon) && (b.min_lat < p.2 && p.2 < b.max_lat)

/-- The queryset of the `in_bounds` action:
`Stop.objects.filter(location__within=bounds)`. -/
def stopsInBounds (stops : List StopRow) (b : BBox) : List StopRow :=
  stops.filter fun s => pointWithinRect s.location b

/-- The predicate the spec sentence asserts: the point falls in the rectangle
inclusive of its boundary. -/
def pointInRectInclusiveSpec (p : Rat × Rat) (b : BBox) : Bool :=
  (b.min_lon ≤ p.1 && p.1 ≤ b.max_lon) && (b.min_lat ≤ p.2 && p.2 ≤ b.max_lat)

/-! ## Congestion clustering (Spatial Query Service) -/

/-- A live vehicle position, as a candidate point for congestion clustering:
plane coordinates in metres and a reported speed. -/
structure VehiclePt where
  vehicle_id : String
  x : Int
  y : Int
  speed : Int
deriving DecidableEq

/-- Squared plane distance between two vehicle points (square metres);
geographic distance is abstracted as plane Euclidean distance. -/
def distSqM (p q : VehiclePt) : Int :=
  (p.x - q.x) * (p.x - q.x) + (p.y - q.y) * (p.y - q.y)

/-- Modelled from the spec: the congestion-zone clustering heuristic of the
Spatial Query Service is not among the source files here; §4.5 specifies it as
"iterate candidate points not yet assigned to a cluster, gather all unassigned
candidates within a fixed radius, and if the count meets a minimum threshold,
emit a cluster and mark all its members as assigned", first candidate
encountered becoming a cluster seed.  The first list argument is the full
candidate pool, the last two are the iteration worklist and the
already-assigned set; the radius is in metres. -/
def greedyClusters (all : List VehiclePt) (minVehicles : Nat) (radiusM : Int) :
    List VehiclePt → List VehiclePt → List (List VehiclePt)
  | [], _ => []
  | p :: rest, assigned =>
      if p ∈ assigned then greedyClusters all minVehicles radiusM rest assigned
      else
        let members := all.filter fun q =>
          decide (q ∉ assigned ∧ distSqM p q ≤ radiusM * radiusM)
        if minVehicles ≤ members.length then
          members :: greedyClusters all minVehicles radiusM rest (assigned ++ members)
        else greedyClusters all minVehicles radiusM rest assigned

/-- Modelled from the spec: candidate selection keeps the slow ("congested")
vehicles, then the greedy pass of `greedyClusters` runs over them in stream
order. -/
def congestionClusters (vehicles : List VehiclePt) (speedMax : Int)
    (minVehicles : Nat) (radiusM : Int) : List (List VehiclePt) :=
  let candidates := vehicles.filter fun v => decide (v.speed ≤ speedMax)
  greedyClusters candidates minVehicles radiusM candidates []

/-! ## Concrete evaluation data -/

/-- The empty persisted store. -/
def emptyStore : Store :=
  { agencies := [], calendars := [], stops := [], routes := [], trips := [],
    stopTimes := [], shapes := [] }

/-- A persisted route `R1`, as the routes loader would create it. -/
def demoRouteRow : RouteRow :=
  { route_id := "R1", route_short_name := "1", route_long_name := "Line 1",
    route_type := "3", operator := "OP" }

/-- A store holding just the route `R1`. -/
def demoStoreR1 : Store := { emptyStore with routes := [demoRouteRow] }

/-- A parsed trip referencing the persisted route `R1`. -/
def demoTripKnown : TripRecord :=
  { route_id := "R1", service_id := "S1", trip_id := "T1",
    trip_headsign := "City", direction_id := some 0, shape_id := "SH1",
    wheelchair_accessible := some 0 }

/-- A parsed trip referencing a route id absent from the store. -/
def demoTripUnknown : TripRecord :=
  { route_id := "RX", service_id := "S1", trip_id := "T2",
    trip_headsign := "Depot", direction_id := some 1, shape_id := "",
    wheelchair_accessible := some 1 }

/-- The `Trip` row the loader builds for `demoTripKnown`. -/
def demoTripRowKnown : TripRow :=
  { trip_id := "T1", route_id := "R1", service_id := "S1",
    trip_headsign := "City", direction_id := 0, shape_id := "SH1",
    wheelchair_accessible := false }

/-- A parsed stop-time stream for the witness of the stop-times claim: the
first row resolves against nothing, the second resolves fully. -/
def demoStopTimeRecs : List StopTimeRecord :=
  [{ trip_id := "TX", stop_id := "SX", stop_sequence := 1,
     arrival_time := none, departure_time := none, stop_headsign := "",
     pickup_type := some 0, drop_off_type := some 0 },
   { trip_id := "T1", stop_id := "S1", stop_sequence := 1,
     arrival_time := some 28800, departure_time := some 28830,
     stop_headsign := "", pickup_type := some 0, drop_off_type := some 0 }]

/-- A GTFS directory with every feed file absent. -/
def demoEmptyDir : GtfsDir :=
  { path := "GTFS_realtime", stopsFile := none, routesFile := none,
    tripsFile := none, stopTimesFile := none, agencyFile := none,
    calendarFile := none, shapesFile := none }

/-- The rational `53.3`, given in reduced form so that comparisons on it
evaluate by kernel reduction. -/
def q533 : Rat := ⟨533, 10, by decide, by decide⟩

/-- The rational `-6.25` in reduced form. -/
def qNeg625 : Rat := ⟨-25, 4, by decide, by decide⟩

/-- The rational `53.35` in reduced form. -/
def q5335 : Rat := ⟨1067, 20, by decide, by decide⟩

/-- The rational `-6.30` in reduced form. -/
def qNeg630 : Rat := ⟨-63, 10, by decide, by decide⟩

/-- The rational `-6.20` in reduced form. -/
def qNeg620 : Rat := ⟨-31, 5, by decide, by decide⟩

/-- Raw stop rows exercising every branch of `parse_stops`: a good row, a
zero-latitude row, a zero-longitude row and an unparseable-latitude row. -/
def demoRawStops : List RawStopRow :=
  [{ stop_id := "S1", stop_code := "c1", stop_name := "Abbey", stop_desc := "",
     stop_lat := some q533, stop_lon := some qNeg625,
     location_type := "stop", parent_station := none },
   { stop_id := "S2", stop_code := "", stop_name := "ZeroLat", stop_desc := "",
     stop_lat := some 0, stop_lon := some qNeg625,
     location_type := "stop", parent_station := none },
   { stop_id := "S3", stop_code := "", stop_name := "ZeroLon", stop_desc := "",
     stop_lat := some q533, stop_lon := some 0,
     location_type := "stop", parent_station := none },
   { stop_id := "S4", stop_code := "", stop_name := "BadLat", stop_desc := "",
     stop_lat := none, stop_lon := some qNeg625,
     location_type := "stop", parent_station := none }]

/-- Raw calendar rows: one fully parseable, one with an unparseable
`start_date` and a missing `end_date`. -/
def demoRawCalendars : List RawCalendarRow :=
  [{ service_id := "C1", monday := "1", tuesday := "1", wednesday := "1",
     thursday := "1", friday := "1", saturday := "0", sunday := "0",
     start_date := some 738900, end_date := some 739280 },
   { service_id := "C2", monday := "0", tuesday := "0", wednesday := "0",
     thursday := "0", friday := "0", saturday := "1", sunday := "1",
     start_date := none, end_date := none }]

/-- Shape records exercising the assembler: shape `SHA` has sequences
`2, 1, 2` (the second sequence-2 point overwrites the first), shape `SHB` is a
singleton. -/
def demoShapeRecs : List ShapeRecord :=
  [{ shape_id := "SHA", shape_pt_lat := 1, shape_pt_lon := 10, shape_pt_sequence := 2 },
   { shape_id := "SHA", shape_pt_lat := 2, shape_pt_lon := 20, shape_pt_sequence := 1 },
   { shape_id := "SHA", shape_pt_lat := 3, shape_pt_lon := 30, shape_pt_sequence := 2 },
   { shape_id := "SHB", shape_pt_lat := 4, shape_pt_lon := 40, shape_pt_sequence := 1 }]

/-- The bounding box of the spec's example query:
`min_lat=53.30, max_lat=53.35, min_lon=-6.30, max_lon=-6.20`. -/
def demoBBox : BBox :=
  { min_lat := q533, max_lat := q5335, min_lon := qNeg630, max_lon := qNeg620 }

/-- A stop lying exactly on the southern edge of `demoBBox`
(latitude `53.30`, longitude `-6.25`). -/
def demoBoundaryStop : StopRow :=
  { stop_id := "SB", stop_code := "", stop_name := "Boundary", stop_desc := "",
    location := (qNeg625, q533), stop_type := "stop",
    wheelchair_boarding := false }

/-- Stationary slow vehicle 1 of the clustering scenario. -/
def demoV1 : VehiclePt := { vehicle_id := "V1", x := 0, y := 0, speed := 0 }

/-- Stationary slow vehicle 2, 0.1 km (100 m) from vehicle 1. -/
def demoV2 : VehiclePt := { vehicle_id := "V2", x := 100, y := 0, speed := 0 }

/-- Stationary slow vehicle 3, 0.2 km (200 m) from vehicle 1. -/
def demoV3 : VehiclePt := { vehicle_id := "V3", x := 200, y := 0, speed := 0 }

/-- Stationary slow vehicle 4, 0.3 km (300 m) from vehicle 1. -/
def demoV4 : VehiclePt := { vehicle_id := "V4", x := 300, y := 0, speed := 0 }

/-- A fifth stationary vehicle 10 km (10000 m) away from the group. -/
def demoV5 : VehiclePt := { vehicle_id := "V5", x := 10000, y := 0, speed := 0 }

/-- Four stationary slow vehicles within 0.3 km of each other (collinear at
0, 0.1, 0.2, 0.3 km) and a fifth 10 km away. -/
def demoVehicles : List VehiclePt := [demoV1, demoV2, demoV3, demoV4, demoV5]

/-- The persisted stop `S1`, as the stops loader builds it from the first row
of `demoRawStops`. -/
def demoStopRowS1 : StopRow :=
  { stop_id := "S1", stop_code := "c1", stop_name := "Abbey", stop_desc := "",
    location := (qNeg625, q533), stop_type := "stop",
    wheelchair_boarding := false }

/-- The record `parse_stops` yields for the first row of `demoRawStops`. -/
def demoStopRecordS1 : StopRecord :=
  { stop_id := "S1", stop_code := "c1", stop_name := "Abbey", stop_desc := "",
    stop_lat := q533, stop_lon := qNeg625, location_type := "stop",
    parent_station := none }

/-- A store persisting trip `T1` and stop `S1`, against which the stop-times
loader can resolve. -/
def demoStoreTS : Store :=
  { emptyStore with trips := [demoTripRowKnown], stops := [demoStopRowS1] }

/-! ## Per-table transition functions of one run

These package what `runIngestion` does to each table, so that the run can be
reasoned about field by field; each is proved equal to the corresponding stage
below. -/

/-- Agencies-table transition of one run. -/
def agenciesStep (d : GtfsDir) (t : List AgencyRow) : List AgencyRow :=
  insertIgnore AgencyRow.agency_id t ((parseAgencies d).map agencyRowOfRecord)

/-- Calendars-table transition of one run. -/
def calendarsStep (today : Int) (d : GtfsDir) (t : List CalendarRow) :
    List CalendarRow :=
  insertIgnore CalendarRow.service_id t (parseCalendars today d)

/-- Stops-table transition of one run. -/
def stopsStep (d : GtfsDir) (t : List StopRow) : List StopRow :=
  match parseStops d with
  | .error _ => t
  | .ok recs => insertIgnore StopRow.stop_id t (recs.map stopRowOfRecord)

/-- Routes-table transition of one run. -/
def routesStep (d : GtfsDir) (t : List RouteRow) : List RouteRow :=
  match parseRoutes d with
  | .error _ => t
  | .ok recs => insertIgnore RouteRow.route_id t (recs.map routeRowOfRecord)

/-- Trips-table transition of one run, given the routes table at the time the
trips stage takes its snapshot. -/
def tripsStep (d : GtfsDir) (rt : List RouteRow) (t : List TripRow) :
    List TripRow :=
  match parseTrips d with
  | .error _ => t
  | .ok recs =>
      insertIgnore TripRow.trip_id t
        (buildTripRows (rt.map RouteRow.route_id) recs).1

/-- Stop-times-table transition of one run, given the trips and stops tables
at the time the stop-times stage takes its snapshots. -/
def stopTimesStep (d : GtfsDir) (tt : List TripRow) (st : List StopRow)
    (t : List StopTimeRow) : List StopTimeRow :=
  match parseStopTimes d with
  | .error _ => t
  | .ok recs =>
      insertIgnore (fun x => (x.trip_id, x.stop_sequence)) t
        (buildStopTimeRows (tt.map TripRow.trip_id) (st.map StopRow.stop_id)
          recs).1

/-- Shapes-table transition of one run. -/
def shapesStep (d : GtfsDir) (t : List ShapeRow) : List ShapeRow :=
  insertIgnore (fun r => (r.shape_id, r.sequence)) t
    (assembleShapes (parseShapes d))

/-! ## Helper lemmas: insert-or-ignore -/

theorem insertIgnore_eq_append {α κ : Type} [DecidableEq κ] (key : α → κ)
    (rs : List α) : ∀ t : List α, ∃ u, insertIgnore key t rs = t ++ u := by
  induction rs with
  | nil => intro t; exact ⟨[], by simp [insertIgnore]⟩
  | cons r rs ih =>
      intro t
      rw [insertIgnore]
      by_cases h : key r ∈ t.map key
      · simpa [h] using ih t
      · obtain ⟨u, hu⟩ := ih (t ++ [r])
        exact ⟨[r] ++ u, by simp [h, hu]⟩

theorem mem_insertIgnore_left {α κ : Type} [DecidableEq κ] {key : α → κ}
    {t rs : List α} {x : α} (hx : x ∈ t) : x ∈ insertIgnore key t rs := by
  obtain ⟨u, hu⟩ := insertIgnore_eq_append key rs t
  rw [hu]; exact List.mem_append_left _ hx

theorem mem_keys_insertIgnore_left {α κ : Type} [DecidableEq κ] {key : α → κ}
    {t rs : List α} {k : κ} (hk : k ∈ t.map key) :
    k ∈ (insertIgnore key t rs).map key := by
  obtain ⟨u, hu⟩ := insertIgnore_eq_append key rs t
  rw [hu, List.map_append]
  exact List.mem_append_left _ hk

theorem mem_keys_insertIgnore_right {α κ : Type} [DecidableEq κ] {key : α → κ}
    {rs : List α} {r : α} (hr : r ∈ rs) :
    ∀ t : List α, key r ∈ (insertIgnore key t rs).map key := by
  induction rs with
  | nil => cases hr
  | cons a rs ih =>
      intro t
      rw [insertIgnore]
      rcases List.mem_cons.1 hr with h | h
      · subst h
        by_cases ha : key r ∈ t.map key
        · simpa [ha] using mem_keys_insertIgnore_left ha
        · simp only [ha, if_false]
          exact mem_keys_insertIgnore_left (by simp)
      · by_cases ha : key a ∈ t.map key <;> simp [ha, ih h]

theorem insertIgnore_no_new {α κ : Type} [DecidableEq κ] {key : α → κ}
    {rs : List α} : ∀ t : List α, (∀ r ∈ rs, key r ∈ t.map key) →
    insertIgnore key t rs = t := by
  induction rs with
  | nil => intro t _; rfl
  | cons a rs ih =>
      intro t h
      rw [insertIgnore]
      have ha : key a ∈ t.map key := h a (by simp)
      simp only [ha, if_true]
      exact ih t fun r hr => h r (by simp [hr])

theorem insertIgnore_idem {α κ : Type} [DecidableEq κ] (key : α → κ)
    (t rs : List α) :
    insertIgnore key (insertIgnore key t rs) rs = insertIgnore key t rs :=
  insertIgnore_no_new _ fun _ hr => mem_keys_insertIgnore_right hr t

theorem mem_insertIgnore {α κ : Type} [DecidableEq κ] {key : α → κ}
    {rs : List α} {x : α} :
    ∀ t : List α, x ∈ insertIgnore key t rs → x ∈ t ∨ x ∈ rs := by
  induction rs with
  | nil => intro t h; exact Or.inl h
  | cons a rs ih =>
      intro t h
      rw [insertIgnore] at h
      by_cases ha : key a ∈ t.map key
      · simp only [ha, if_true] at h
        rcases ih t h with h' | h'
        · exact Or.inl h'
        · exact Or.inr (by simp [h'])
      · simp only [ha, if_false] at h
        rcases ih (t ++ [a]) h with h' | h'
        · rcases List.mem_append.1 h' with h'' | h''
          · exact Or.inl h''
          · exact Or.inr (by simp at h''; simp [h''])
        · exact Or.inr (by simp [h'])

/-! ## Helper lemmas: loader record loops -/

theorem buildTripRows_skipped (routeIds : List String) :
    ∀ recs : List TripRecord,
      (buildTripRows routeIds recs).2 =
        recs.countP fun r => decide (r.route_id ∉ routeIds) := by
  intro recs
  induction recs with
  | nil => rfl
  | cons r rs ih =>
      rw [buildTripRows, List.countP_cons]
      by_cases h : r.route_id ∈ routeIds
      · cases hd : r.direction_id <;> cases hw : r.wheelchair_accessible <;>
          simp [h, hd, hw, ih]
      · simp [h, ih]

theorem buildTripRows_route_resolved {routeIds : List String} :
    ∀ {recs : List TripRecord} {row : TripRow},
      row ∈ (buildTripRows routeIds recs).1 → row.route_id ∈ routeIds := by
  intro recs
  induction recs with
  | nil => intro row h; cases h
  | cons r rs ih =>
      intro row h
      rw [buildTripRows] at h
      by_cases hr : r.route_id ∈ routeIds
      · simp only [hr, if_true] at h
        cases hd : r.direction_id <;> cases hw : r.wheelchair_accessible <;>
            rw [hd, hw] at h
        · exact ih h
        · exact ih h
        · exact ih h
        · rcases List.mem_cons.1 h with h' | h'
          · subst h'; exact hr
          · exact ih h'
      · simp only [hr, if_false] at h
        exact ih h

theorem buildStopTimeRows_skipped (tripIds stopIds : List String) :
    ∀ recs : List StopTimeRecord,
      (buildStopTimeRows tripIds stopIds recs).2 =
        recs.countP fun r =>
          decide (r.trip_id ∉ tripIds ∨ r.stop_id ∉ stopIds) := by
  intro recs
  induction recs with
  | nil => rfl
  | cons r rs ih =>
      rw [buildStopTimeRows, List.countP_cons]
      by_cases h : r.trip_id ∈ tripIds ∧ r.stop_id ∈ stopIds
      · cases hp : r.pickup_type <;> cases hd : r.drop_off_type <;>
          simp [h, hp, hd, ih, h.1, h.2]
      · have hb : decide (r.trip_id ∉ tripIds ∨ r.stop_id ∉ stopIds) = true := by
          simpa using not_and_or.mp h
        simp [if_neg h, ih, hb]

theorem buildStopTimeRows_resolved {tripIds stopIds : List String} :
    ∀ {recs : List StopTimeRecord} {row : StopTimeRow},
      row ∈ (buildStopTimeRows tripIds stopIds recs).1 →
        row.trip_id ∈ tripIds ∧ row.stop_id ∈ stopIds := by
  intro recs
  induction recs with
  | nil => intro row h; cases h
  | cons r rs ih =>
      intro row h
      rw [buildStopTimeRows] at h
      by_cases hr : r.trip_id ∈ tripIds ∧ r.stop_id ∈ stopIds
      · simp only [hr, if_true] at h
        cases hp : r.pickup_type <;> cases hd : r.drop_off_type <;>
            rw [hp, hd] at h
        · exact ih h
        · exact ih h
        · exact ih h
        · rcases List.mem_cons.1 h with h' | h'
          · subst h'; exact hr
          · exact ih h'
      · simp only [hr, if_false] at h
        exact ih h

/-! ## Helper lemmas: the run decomposed per table -/

theorem runIngestion_eq (today : Int) (s : Store) (d : GtfsDir) :
    runIngestion today s d =
      { agencies := agenciesStep d s.agencies,
        calendars := calendarsStep today d s.calendars,
        stops := stopsStep d s.stops,
        routes := routesStep d s.routes,
        trips := tripsStep d (routesStep d s.routes) s.trips,
        stopTimes :=
          stopTimesStep d (tripsStep d (routesStep d s.routes) s.trips)
            (stopsStep d s.stops) s.stopTimes,
        shapes := shapesStep d s.shapes } := by
  cases h1 : parseStops d <;> cases h2 : parseRoutes d <;>
    cases h3 : parseTrips d <;> cases h4 : parseStopTimes d <;>
    simp [runIngestion, stageAgencies, stageCalendars, stageStops, stageRoutes,
      stageTrips, stageStopTimes, stageShapes, agenciesStep, calendarsStep,
      stopsStep, routesStep, tripsStep, stopTimesStep, shapesStep,
      fetchAgenciesFromGtfs, fetchCalendarsFromGtfs, fetchStopsFromGtfs,
      fetchRoutesFromGtfs, fetchTripsFromGtfs, fetchStopTimesFromGtfs,
      fetchShapesFromGtfs, routeKeys, tripKeys, stopKeys, h1, h2, h3, h4]

theorem stopsStep_idem (d : GtfsDir) (t : List StopRow) :
    stopsStep d (stopsStep d t) = stopsStep d t := by
  cases h : parseStops d <;> simp [stopsStep, h, insertIgnore_idem]

theorem routesStep_idem (d : GtfsDir) (t : List RouteRow) :
    routesStep d (routesStep d t) = routesStep d t := by
  cases h : parseRoutes d <;> simp [routesStep, h, insertIgnore_idem]

theorem tripsStep_idem (d : GtfsDir) (rt : List RouteRow) (t : List TripRow) :
    tripsStep d rt (tripsStep d rt t) = tripsStep d rt t := by
  cases h : parseTrips d <;> simp [tripsStep, h, insertIgnore_idem]

theorem stopTimesStep_idem (d : GtfsDir) (tt : List TripRow)
    (st : List StopRow) (t : List StopTimeRow) :
    stopTimesStep d tt st (stopTimesStep d tt st t) = stopTimesStep d tt st t := by
  cases h : parseStopTimes d <;> simp [stopTimesStep, h, insertIgnore_idem]

theorem keys_tripsStep_superset {d : GtfsDir} {rt : List RouteRow}
    {t : List TripRow} {k : String} (h : k ∈ t.map TripRow.trip_id) :
    k ∈ (tripsStep d rt t).map TripRow.trip_id := by
  cases hp : parseTrips d <;> simp only [tripsStep, hp]
  · exact h
  · exact mem_keys_insertIgnore_left h

theorem keys_stopsStep_superset {d : GtfsDir} {t : List StopRow} {k : String}
    (h : k ∈ t.map StopRow.stop_id) :
    k ∈ (stopsStep d t).map StopRow.stop_id := by
  cases hp : parseStops d <;> simp only [stopsStep, hp]
  · exact h
  · exact mem_keys_insertIgnore_left h

/-! ## Claim theorems -/

/-- C1: a trip record whose `route_id` is not among the persisted route ids is
never turned into a `Trip` row (in particular no row with a missing route
reference is created — every persisted trip row either predates the run or
carries a resolved route id), and the reported skipped count equals the number
of such records, i.e. it increases by exactly one per unknown-route record. -/
theorem trips_unknown_route_dropped (s : Store) (recs : List TripRecord) :
    (fetchTripsFromGtfs s recs).2.2 =
      recs.countP (fun r => decide (r.route_id ∉ routeKeys s)) ∧
    ∀ row ∈ ((fetchTripsFromGtfs s recs).1).trips,
      row ∈ s.trips ∨ row.route_id ∈ routeKeys s := by
  constructor
  · exact buildTripRows_skipped (routeKeys s) recs
  · intro row hrow
    have h : row ∈ s.trips ∨ row ∈ (buildTripRows (routeKeys s) recs).1 :=
      mem_insertIgnore s.trips hrow
    rcases h with h | h
    · exact Or.inl h
    · exact Or.inr (buildTripRows_route_resolved h)

/-- Witness for C1 at a concrete store and feed: the route `R1` is persisted,
`T1` resolves against it, `T2` references the unknown route `RX`; the skipped
count is exactly 1 and the membership implication is discharged for the row
built from `T1`. -/
theorem trips_unknown_route_dropped_witness :
    (fetchTripsFromGtfs demoStoreR1 [demoTripKnown, demoTripUnknown]).2.2 = 1 ∧
    (demoTripRowKnown ∈ demoStoreR1.trips ∨
      demoTripRowKnown.route_id ∈ routeKeys demoStoreR1) := by
  have h := trips_unknown_route_dropped demoStoreR1 [demoTripKnown, demoTripUnknown]
  refine ⟨h.1.trans (by decide), h.2 demoTripRowKnown (by decide)⟩

/-- C4: running the full ingestion twice over the same unchanged feed yields
the same store — and hence the same total row count — as running it once:
every bulk insert ignores uniqueness conflicts, so the second run re-skips
every already-persisted row and adds none. -/
theorem ingestion_idempotent (today : Int) (s : Store) (d : GtfsDir) :
    runIngestion today (runIngestion today s d) d = runIngestion today s d ∧
    totalRows (runIngestion today (runIngestion today s d) d) =
      totalRows (runIngestion today s d) := by
  have h : runIngestion today (runIngestion today s d) d = runIngestion today s d := by
    rw [runIngestion_eq today s d, runIngestion_eq]
    simp only [Store.mk.injEq]
    refine ⟨?_, ?_, ?_, ?_, ?_, ?_, ?_⟩ <;>
      simp [agenciesStep, calendarsStep, shapesStep, insertIgnore_idem,
        stopsStep_idem, routesStep_idem, tripsStep_idem, stopTimesStep_idem]
  exact ⟨h, by rw [h]⟩

/-- C2: after any ingestion run every persisted `StopTime` resolves its trip
and stop against the persisted tables (provided the store already satisfied
that invariant before the run), and the stop-times loader counts as skipped
exactly the records whose `trip_id` or `stop_id` misses the snapshot. -/
theorem stop_times_referential_integrity :
    (∀ (today : Int) (s : Store) (d : GtfsDir), storeWellFormed s →
        storeWellFormed (runIngestion today s d)) ∧
    ∀ (s : Store) (recs : List StopTimeRecord),
      (fetchStopTimesFromGtfs s recs).2.2 =
        recs.countP fun r =>
          decide (r.trip_id ∉ tripKeys s ∨ r.stop_id ∉ stopKeys s) := by
  constructor
  · intro today s d hwf
    rw [runIngestion_eq]
    intro st hst
    simp only [tripKeys, stopKeys] at *
    have hold : st ∈ s.stopTimes →
        st.trip_id ∈ (tripsStep d (routesStep d s.routes) s.trips).map TripRow.trip_id ∧
        st.stop_id ∈ (stopsStep d s.stops).map StopRow.stop_id := by
      intro hmem
      obtain ⟨h1, h2⟩ := hwf st hmem
      exact ⟨keys_tripsStep_superset h1, keys_stopsStep_superset h2⟩
    cases hp : parseStopTimes d with
    | error e =>
        rw [stopTimesStep, hp] at hst
        exact hold hst
    | ok recs =>
        rw [stopTimesStep, hp] at hst
        rcases mem_insertIgnore s.stopTimes hst with h | h
        · exact hold h
        · exact buildStopTimeRows_resolved h
  · intro s recs
    exact buildStopTimeRows_skipped (tripKeys s) (stopKeys s) recs

/-- Witness for C2: the invariant-preservation part applied to the empty
store (which trivially satisfies it) and the empty feed directory, and the
skip-count part evaluated on a store persisting `T1`/`S1` and a stream with
one unresolvable and one resolvable record, giving exactly one skip. -/
theorem stop_times_referential_integrity_witness :
    storeWellFormed (runIngestion 0 emptyStore demoEmptyDir) ∧
    (fetchStopTimesFromGtfs demoStoreTS demoStopTimeRecs).2.2 = 1 := by
  have h := stop_times_referential_integrity
  refine ⟨h.1 0 emptyStore demoEmptyDir ?_, (h.2 demoStoreTS demoStopTimeRecs).trans (by decide)⟩
  intro st hst
  cases hst

/-- C10: each loader's reported created count is the number of records
appended to its insert buffer — conflict-ignored rows included: the stops
loader reports every parsed record, and on a second identical run both the
stops and the trips loader report the same created count as the first while
persisting zero new rows. -/
theorem created_count_reports_buffered (s : Store) (recsS : List StopRecord)
    (recsT : List TripRecord) :
    (fetchStopsFromGtfs s recsS).2 = recsS.length ∧
    (fetchStopsFromGtfs (fetchStopsFromGtfs s recsS).1 recsS).2 =
      (fetchStopsFromGtfs s recsS).2 ∧
    ((fetchStopsFromGtfs (fetchStopsFromGtfs s recsS).1 recsS).1).stops =
      ((fetchStopsFromGtfs s recsS).1).stops ∧
    (fetchTripsFromGtfs s recsT).2.1 =
      (buildTripRows (routeKeys s) recsT).1.length ∧
    (fetchTripsFromGtfs (fetchTripsFromGtfs s recsT).1 recsT).2.1 =
      (fetchTripsFromGtfs s recsT).2.1 ∧
    ((fetchTripsFromGtfs (fetchTripsFromGtfs s recsT).1 recsT).1).trips =
      ((fetchTripsFromGtfs s recsT).1).trips := by
  refine ⟨by simp [fetchStopsFromGtfs], rfl, ?_, rfl, rfl, ?_⟩
  · simp [fetchStopsFromGtfs, insertIgnore_idem]
  · simp [fetchTripsFromGtfs, routeKeys, insertIgnore_idem]

/-- C5: a missing required feed file (`stops.txt`, `routes.txt`, `trips.txt`,
`stop_times.txt`) makes the corresponding parser raise a file-not-found
error, while a missing optional file (`agency.txt`, `calendar.txt`,
`shapes.txt`) makes the corresponding parser yield zero records with no
error. -/
theorem missing_file_contract (d : GtfsDir) :
    (d.stopsFile = none →
      parseStops d =
        .error ("stops.txt not found at " ++ d.path ++ "/stops.txt")) ∧
    (d.routesFile = none →
      parseRoutes d =
        .error ("routes.txt not found at " ++ d.path ++ "/routes.txt")) ∧
    (d.tripsFile = none →
      parseTrips d =
        .error ("trips.txt not found at " ++ d.path ++ "/trips.txt")) ∧
    (d.stopTimesFile = none →
      parseStopTimes d =
        .error ("stop_times.txt not found at " ++ d.path ++ "/stop_times.txt")) ∧
    (d.agencyFile = none → parseAgencies d = []) ∧
    (d.calendarFile = none → ∀ today, parseCalendars today d = []) ∧
    (d.shapesFile = none → parseShapes d = []) := by
  refine ⟨fun h => ?_, fun h => ?_, fun h => ?_, fun h => ?_, fun h => ?_,
    fun h today => ?_, fun h => ?_⟩ <;>
    simp [parseStops, parseRoutes, parseTrips, parseStopTimes, parseAgencies,
      parseCalendars, parseShapes, h]

/-- Witness for C5 at the directory with every file absent. -/
theorem missing_file_contract_witness :
    parseStops demoEmptyDir =
      .error "stops.txt not found at GTFS_realtime/stops.txt" ∧
    parseRoutes demoEmptyDir =
      .error "routes.txt not found at GTFS_realtime/routes.txt" ∧
    parseTrips demoEmptyDir =
      .error "trips.txt not found at GTFS_realtime/trips.txt" ∧
    parseStopTimes demoEmptyDir =
      .error "stop_times.txt not found at GTFS_realtime/stop_times.txt" ∧
    parseAgencies demoEmptyDir = [] ∧
    parseCalendars 739000 demoEmptyDir = [] ∧
    parseShapes demoEmptyDir = [] := by
  have h := missing_file_contract demoEmptyDir
  exact ⟨h.1 rfl, h.2.1 rfl, h.2.2.1 rfl, h.2.2.2.1 rfl, h.2.2.2.2.1 rfl,
    h.2.2.2.2.2.1 rfl 739000, h.2.2.2.2.2.2 rfl⟩

/-- C6: every record yielded by `parse_stops` has numeric, nonzero latitude
and longitude: the coordinates come from successful `float(...)` parses of
some input row, and a record is only yielded when neither parses to zero. -/
theorem stops_nonzero_coordinates (rows : List RawStopRow) (r : StopRecord)
    (h : r ∈ parseStopsRows rows) :
    (r.stop_lat ≠ 0 ∧ r.stop_lon ≠ 0) ∧
    ∃ raw ∈ rows, raw.stop_lat = some r.stop_lat ∧
      raw.stop_lon = some r.stop_lon := by
  rw [parseStopsRows, List.mem_filterMap] at h
  obtain ⟨raw, hraw, hf⟩ := h
  cases hlat : raw.stop_lat with
  | none => rw [hlat] at hf; cases hf
  | some lat =>
    cases hlon : raw.stop_lon with
    | none => rw [hlat, hlon] at hf; cases hf
    | some lon =>
      rw [hlat, hlon] at hf
      by_cases hz : lat = 0 ∨ lon = 0
      · simp [hz] at hf
      · simp only [if_neg hz, Option.some.injEq] at hf
        subst hf
        push_neg at hz
        exact ⟨⟨hz.1, hz.2⟩, raw, hraw, by simp [hlat], by simp [hlon]⟩

/-- Witness for C6: the record yielded for the first row of `demoRawStops`
(the only surviving row of four) has nonzero coordinates originating from
that row. -/
theorem stops_nonzero_coordinates_witness :
    (demoStopRecordS1.stop_lat ≠ 0 ∧ demoStopRecordS1.stop_lon ≠ 0) ∧
    ∃ raw ∈ demoRawStops, raw.stop_lat = some demoStopRecordS1.stop_lat ∧
      raw.stop_lon = some demoStopRecordS1.stop_lon :=
  stops_nonzero_coordinates demoRawStops demoStopRecordS1 (by decide)

/-- C7 counterexample: the stop lying exactly on the southern boundary of the
example bounding box satisfies the spec's inclusive-rectangle predicate, yet
the `in_bounds` queryset (OGC `within`) returns no stop at all — so the
endpoint does not return every stop in the closed rectangle. -/
theorem in_bounds_boundary_excluded :
    pointInRectInclusiveSpec demoBoundaryStop.location demoBBox = true ∧
    stopsInBounds [demoBoundaryStop] demoBBox = [] := by decide

/-- C7 amended: the `in_bounds` endpoint returns exactly the stops whose
point falls strictly inside the open rectangle — boundary points are
excluded, because the `within` lookup requires the point to intersect the
polygon's interior. -/
theorem in_bounds_strict_rectangle (stops : List StopRow) (b : BBox)
    (s : StopRow) :
    s ∈ stopsInBounds stops b ↔
      s ∈ stops ∧ b.min_lon < s.location.1 ∧ s.location.1 < b.max_lon ∧
        b.min_lat < s.location.2 ∧ s.location.2 < b.max_lat := by
  simp [stopsInBounds, pointWithinRect, List.mem_filter, Bool.and_eq_true,
    decide_eq_true_eq, and_assoc]

/-- C8: `parse_calendars` never drops a row for an unparseable date — the row
count is preserved and each input row yields a record whose start and end
dates are the parsed values when parsing succeeds and the current processing
date otherwise. -/
theorem calendar_rows_defaulted_not_dropped (today : Int)
    (rows : List RawCalendarRow) :
    (parseCalendarsRows today rows).length = rows.length ∧
    ∀ r ∈ rows, ∃ out ∈ parseCalendarsRows today rows,
      out.service_id = r.service_id ∧
      out.start_date = r.start_date.getD today ∧
      out.end_date = r.end_date.getD today := by
  constructor
  · simp [parseCalendarsRows]
  · intro r hr
    exact ⟨_, List.mem_map_of_mem _ hr, rfl, rfl, rfl⟩

/-- Witness for C8: the demo calendar row `C2`, whose two date strings fail
to parse, is still yielded with both dates defaulted to the processing
date. -/
theorem calendar_rows_defaulted_not_dropped_witness :
    (parseCalendarsRows 739000 demoRawCalendars).length = 2 ∧
    ∃ out ∈ parseCalendarsRows 739000 demoRawCalendars,
      out.service_id = "C2" ∧ out.start_date = 739000 ∧ out.end_date = 739000 := by
  have h := calendar_rows_defaulted_not_dropped 739000 demoRawCalendars
  obtain ⟨out, hmem, hsid, hs, he⟩ :=
    h.2 { service_id := "C2", monday := "0", tuesday := "0", wednesday := "0",
          thursday := "0", friday := "0", saturday := "1", sunday := "1",
          start_date := none, end_date := none } (by decide)
  exact ⟨h.1.trans (by decide), out, hmem, hsid, hs, he⟩

/-- C9 (modelled from the spec, the clustering heuristic being absent from
the sources at hand): with four stationary slow vehicles within 0.3 km of
each other, a fifth 10 km away, `min_vehicles = 3` and `distance_km = 0.5`
(500 m), the greedy congestion clustering reports exactly one cluster
containing all four, and the distant vehicle appears in no cluster's
membership. -/
theorem congestion_clustering_scenario :
    congestionClusters demoVehicles 5 3 500 =
      [[demoV1, demoV2, demoV3, demoV4]] ∧
    ∀ c ∈ congestionClusters demoVehicles 5 3 500, demoV5 ∉ c := by decide

/-! ## Helper lemmas: the Shape Assembler -/

theorem lookupSeq_updateSeq (sq j : Int) (c : Rat × Rat) :
    ∀ inner : List (Int × (Rat × Rat)),
      lookupSeq (updateSeq inner sq c) j =
        if j = sq then some c else lookupSeq inner j := by
  intro inner
  induction inner with
  | nil => by_cases h : j = sq <;> simp [updateSeq, lookupSeq, h, Ne.symm]
  | cons e t ih =>
      obtain ⟨ek, ev⟩ := e
      rw [updateSeq]
      by_cases he : ek = sq
      · subst he
        by_cases hj : j = ek
        · subst hj; simp [lookupSeq]
        · have hj' : ¬ ek = j := fun hh => hj hh.symm
          simp [lookupSeq, hj, hj']
      · rw [if_neg he]
        by_cases hj : j = ek
        · subst hj
          simp [lookupSeq, he]
        · have hj' : ¬ ek = j := fun h => hj h.symm
          simp [lookupSeq, hj', ih]

theorem keys_updateSeq (sq : Int) (c : Rat × Rat) :
    ∀ (inner : List (Int × (Rat × Rat))) (j : Int),
      j ∈ (updateSeq inner sq c).map Prod.fst ↔
        j = sq ∨ j ∈ inner.map Prod.fst := by
  intro inner
  induction inner with
  | nil => intro j; simp [updateSeq]
  | cons e t ih =>
      obtain ⟨ek, ev⟩ := e
      intro j
      rw [updateSeq]
      by_cases he : ek = sq
      · subst he; simp [or_comm]
      · simp [he, ih, or_left_comm]

theorem nodup_keys_updateSeq (sq : Int) (c : Rat × Rat) :
    ∀ inner : List (Int × (Rat × Rat)),
      (inner.map Prod.fst).Nodup → ((updateSeq inner sq c).map Prod.fst).Nodup := by
  intro inner
  induction inner with
  | nil => intro _; simp [updateSeq]
  | cons e t ih =>
      obtain ⟨ek, ev⟩ := e
      intro h
      rw [List.map_cons, List.nodup_cons] at h
      rw [updateSeq]
      by_cases he : ek = sq
      · subst he
        rw [if_pos rfl, List.map_cons, List.nodup_cons]
        exact ⟨h.1, h.2⟩
      · rw [if_neg he, List.map_cons, List.nodup_cons]
        refine ⟨fun hmem => ?_, ih h.2⟩
        rcases (keys_updateSeq sq c t ek).1 hmem with h' | h'
        · exact he h'
        · exact h.1 h'

theorem innerOf_addShapePoint (r : ShapeRecord) (sid : String) :
    ∀ acc : List (String × List (Int × (Rat × Rat))),
      innerOf (addShapePoint acc r) sid =
        if sid = r.shape_id then
          updateSeq (innerOf acc sid) r.shape_pt_sequence
            (r.shape_pt_lon, r.shape_pt_lat)
        else innerOf acc sid := by
  intro acc
  induction acc with
  | nil =>
      by_cases h : sid = r.shape_id
      · subst h; simp [addShapePoint, innerOf, updateSeq]
      · have h' : ¬ r.shape_id = sid := fun hh => h hh.symm
        simp [addShapePoint, innerOf, h, h']
  | cons a t ih =>
      obtain ⟨ak, ainner⟩ := a
      rw [addShapePoint]
      by_cases hk : ak = r.shape_id
      · rw [if_pos hk]
        by_cases hs : sid = r.shape_id
        · have hks : ak = sid := by rw [hk, hs]
          rw [if_pos hs, innerOf, innerOf, if_pos hks, if_pos hks]
        · have hks : ¬ ak = sid := fun hh => hs (by rw [← hh, hk])
          rw [if_neg hs, innerOf, innerOf, if_neg hks, if_neg hks]
      · rw [if_neg hk, innerOf]
        by_cases hks : ak = sid
        · have hs : ¬ sid = r.shape_id := fun hh => hk (by rw [hks, hh])
          rw [if_pos hks, if_neg hs, innerOf, if_pos hks]
        · rw [if_neg hks, ih, innerOf, if_neg hks]

theorem lookupSeq_foldl_addShapePoint (sid : String) (j : Int) :
    ∀ (recs : List ShapeRecord) (acc : List (String × List (Int × (Rat × Rat)))),
      lookupSeq (innerOf (List.foldl addShapePoint acc recs) sid) j =
        match lastCoordAt recs sid j with
        | some c => some c
        | none => lookupSeq (innerOf acc sid) j := by
  intro recs
  induction recs with
  | nil => intro acc; simp [lastCoordAt]
  | cons r rs ih =>
      intro acc
      rw [List.foldl_cons, ih (addShapePoint acc r), lastCoordAt]
      cases h : lastCoordAt rs sid j with
      | some c => rfl
      | none =>
          rw [innerOf_addShapePoint]
          by_cases h1 : r.shape_id = sid
          · rw [if_pos h1.symm, lookupSeq_updateSeq]
            by_cases h2 : r.shape_pt_sequence = j
            · rw [if_pos h2.symm, if_pos ⟨h1, h2⟩]
            · rw [if_neg (fun hh => h2 hh.symm),
                if_neg (fun hh : _ ∧ _ => h2 hh.2)]
          · rw [if_neg (fun hh => h1 hh.symm),
              if_neg (fun hh : _ ∧ _ => h1 hh.1)]

theorem lookupSeq_groupShapePoints (recs : List ShapeRecord) (sid : String)
    (j : Int) :
    lookupSeq (innerOf (groupShapePoints recs) sid) j = lastCoordAt recs sid j := by
  rw [groupShapePoints, lookupSeq_foldl_addShapePoint]
  cases lastCoordAt recs sid j <;> simp [innerOf, lookupSeq]

theorem lookupSeq_eq_none_iff (j : Int) :
    ∀ inner : List (Int × (Rat × Rat)),
      lookupSeq inner j = none ↔ j ∉ inner.map Prod.fst := by
  intro inner
  induction inner with
  | nil => simp [lookupSeq]
  | cons e t ih =>
      obtain ⟨ek, ev⟩ := e
      rw [lookupSeq]
      by_cases h : ek = j
      · subst h; simp
      · have h' : ¬ j = ek := fun hh => h hh.symm
        simp [h, h', ih]

theorem seqsOf_cons (r : ShapeRecord) (rs : List ShapeRecord) (sid : String) :
    seqsOf (r :: rs) sid =
      if r.shape_id = sid then r.shape_pt_sequence :: seqsOf rs sid
      else seqsOf rs sid := by
  by_cases h : r.shape_id = sid <;> simp [seqsOf, List.filter_cons, h]

theorem lastCoordAt_eq_none_iff (sid : String) (j : Int) :
    ∀ recs : List ShapeRecord,
      lastCoordAt recs sid j = none ↔ j ∉ seqsOf recs sid := by
  intro recs
  induction recs with
  | nil => simp [lastCoordAt, seqsOf]
  | cons r rs ih =>
      rw [lastCoordAt, seqsOf_cons]
      cases h : lastCoordAt rs sid j with
      | some c =>
          have hmem : j ∈ seqsOf rs sid := by
            by_contra hq
            rw [ih.2 hq] at h
            cases h
          by_cases hs : r.shape_id = sid <;> simp [hs, hmem]
      | none =>
          have hnot : j ∉ seqsOf rs sid := ih.1 h
          by_cases hs : r.shape_id = sid
          · by_cases hj : r.shape_pt_sequence = j
            · subst hj
              rw [if_pos ⟨hs, rfl⟩, if_pos hs]
              simp
            · rw [if_neg (fun hh : _ ∧ _ => hj hh.2), if_pos hs]
              have hj' : ¬ j = r.shape_pt_sequence := fun hh => hj hh.symm
              simp [hj', hnot]
          · rw [if_neg (fun hh : _ ∧ _ => hs hh.1), if_neg hs]
            simp [hnot]

theorem innersNodup_addShapePoint (r : ShapeRecord) :
    ∀ acc : List (String × List (Int × (Rat × Rat))),
      (∀ e ∈ acc, (e.2.map Prod.fst).Nodup) →
      ∀ e ∈ addShapePoint acc r, (e.2.map Prod.fst).Nodup := by
  intro acc
  induction acc with
  | nil =>
      intro _ e he
      rw [addShapePoint] at he
      rcases List.mem_cons.1 he with h' | h'
      · subst h'; simp
      · cases h'
  | cons a t ih =>
      obtain ⟨ak, ainner⟩ := a
      intro h e he
      rw [addShapePoint] at he
      by_cases hk : ak = r.shape_id
      · rw [if_pos hk] at he
        rcases List.mem_cons.1 he with h' | h'
        · subst h'
          exact nodup_keys_updateSeq _ _ ainner (h (ak, ainner) (List.mem_cons_self _ _))
        · exact h _ (by simp [h'])
      · rw [if_neg hk] at he
        rcases List.mem_cons.1 he with h' | h'
        · subst h'; exact h _ (by simp)
        · exact ih (fun e' he' => h e' (by simp [he'])) e h'

theorem innersNodup_groupShapePoints (recs : List ShapeRecord) :
    ∀ e ∈ groupShapePoints recs, (e.2.map Prod.fst).Nodup := by
  rw [groupShapePoints]
  suffices h : ∀ acc, (∀ e ∈ acc, (e.2.map Prod.fst).Nodup) →
      ∀ e ∈ List.foldl addShapePoint acc recs, (e.2.map Prod.fst).Nodup from
    h [] (by intro e he; cases he)
  induction recs with
  | nil => intro acc h; simpa using h
  | cons r rs ih =>
      intro acc h
      rw [List.foldl_cons]
      exact ih _ (innersNodup_addShapePoint r acc h)

theorem nodup_keys_innerOf (sid : String) :
    ∀ acc : List (String × List (Int × (Rat × Rat))),
      (∀ e ∈ acc, (e.2.map Prod.fst).Nodup) →
      ((innerOf acc sid).map Prod.fst).Nodup := by
  intro acc
  induction acc with
  | nil => intro _; simp [innerOf]
  | cons a t ih =>
      obtain ⟨ak, ainner⟩ := a
      intro h
      rw [innerOf]
      by_cases hk : ak = sid
      · rw [if_pos hk]; exact h (ak, ainner) (List.mem_cons_self _ _)
      · rw [if_neg hk]; exact ih fun e he => h e (by simp [he])

theorem keys_addShapePoint (r : ShapeRecord) :
    ∀ (acc : List (String × List (Int × (Rat × Rat)))) (k : String),
      k ∈ (addShapePoint acc r).map Prod.fst ↔
        k = r.shape_id ∨ k ∈ acc.map Prod.fst := by
  intro acc
  induction acc with
  | nil => intro k; simp [addShapePoint]
  | cons a t ih =>
      obtain ⟨ak, ainner⟩ := a
      intro k
      rw [addShapePoint]
      by_cases hk : ak = r.shape_id
      · subst hk; simp [or_comm, or_left_comm]
      · simp only [if_neg hk, List.map_cons, List.mem_cons, ih, or_left_comm]

theorem nodup_keys_addShapePoint (r : ShapeRecord) :
    ∀ acc : List (String × List (Int × (Rat × Rat))),
      (acc.map Prod.fst).Nodup → ((addShapePoint acc r).map Prod.fst).Nodup := by
  intro acc
  induction acc with
  | nil => intro _; simp [addShapePoint]
  | cons a t ih =>
      obtain ⟨ak, ainner⟩ := a
      intro h
      rw [List.map_cons, List.nodup_cons] at h
      rw [addShapePoint]
      by_cases hk : ak = r.shape_id
      · rw [if_pos hk, List.map_cons, List.nodup_cons]
        exact ⟨h.1, h.2⟩
      · rw [if_neg hk, List.map_cons, List.nodup_cons]
        refine ⟨fun hmem => ?_, ih h.2⟩
        rcases (keys_addShapePoint r t ak).1 hmem with h' | h'
        · exact hk h'
        · exact h.1 h'

theorem nodup_keys_groupShapePoints (recs : List ShapeRecord) :
    ((groupShapePoints recs).map Prod.fst).Nodup := by
  rw [groupShapePoints]
  suffices h : ∀ acc : List (String × List (Int × (Rat × Rat))),
      (acc.map Prod.fst).Nodup →
      ((List.foldl addShapePoint acc recs).map Prod.fst).Nodup from
    h [] (by simp)
  induction recs with
  | nil => intro acc h; simpa using h
  | cons r rs ih =>
      intro acc h
      rw [List.foldl_cons]
      exact ih _ (nodup_keys_addShapePoint r acc h)

theorem innerOf_eq_of_mem (sid : String) (inner : List (Int × (Rat × Rat))) :
    ∀ acc : List (String × List (Int × (Rat × Rat))),
      (acc.map Prod.fst).Nodup → (sid, inner) ∈ acc → innerOf acc sid = inner := by
  intro acc
  induction acc with
  | nil => intro _ h; cases h
  | cons a t ih =>
      obtain ⟨ak, ainner⟩ := a
      intro hnd hmem
      rw [List.map_cons, List.nodup_cons] at hnd
      rw [innerOf]
      rcases List.mem_cons.1 hmem with h' | h'
      · have h1 : sid = ak := congrArg Prod.fst h'
        have h2 : inner = ainner := congrArg Prod.snd h'
        rw [if_pos h1.symm, h2]
      · have hks : ¬ ak = sid := by
          intro hk
          exact hnd.1 (hk ▸ (List.mem_map.2 ⟨(sid, inner), h', rfl⟩))
        rw [if_neg hks]
        exact ih hnd.2 h'

theorem innerOf_mem (sid : String) :
    ∀ acc : List (String × List (Int × (Rat × Rat))),
      innerOf acc sid ≠ [] → (sid, innerOf acc sid) ∈ acc := by
  intro acc
  induction acc with
  | nil => intro h; exact absurd rfl h
  | cons a t ih =>
      obtain ⟨ak, ainner⟩ := a
      intro h
      rw [innerOf] at h ⊢
      by_cases hk : ak = sid
      · subst hk
        rw [if_pos rfl] at h ⊢
        exact List.mem_cons_self _ _
      · rw [if_neg hk] at h ⊢
        exact List.mem_cons_of_mem _ (ih h)

theorem length_filterMap_of_isSome {α β : Type} (f : α → Option β) :
    ∀ l : List α, (∀ a ∈ l, (f a).isSome) → (l.filterMap f).length = l.length := by
  intro l
  induction l with
  | nil => intro _; rfl
  | cons a t ih =>
      intro h
      rw [List.filterMap_cons]
      cases hf : f a with
      | none =>
          have := h a (by simp)
          rw [hf] at this
          cases this
      | some b => simp [ih fun x hx => h x (by simp [hx])]

theorem filterMap_congr_mem {α β : Type} (f g : α → Option β) :
    ∀ l : List α, (∀ a ∈ l, f a = g a) → l.filterMap f = l.filterMap g := by
  intro l
  induction l with
  | nil => intro _; rfl
  | cons a t ih =>
      intro h
      rw [List.filterMap_cons, List.filterMap_cons, h a (by simp),
        ih fun x hx => h x (by simp [hx])]

theorem shapeCoords_length (inner : List (Int × (Rat × Rat))) :
    (shapeCoords inner).length = inner.length := by
  rw [shapeCoords, length_filterMap_of_isSome,
    (List.perm_insertionSort _ _).length_eq, List.length_map]
  intro j hj
  rw [List.mem_insertionSort] at hj
  cases hl : lookupSeq inner j with
  | none => exact absurd hj (by simpa using (lookupSeq_eq_none_iff j inner).1 hl)
  | some c => simp

theorem keys_innerOf_perm_dedup (recs : List ShapeRecord) (sid : String) :
    ((innerOf (groupShapePoints recs) sid).map Prod.fst).Perm
      (seqsOf recs sid).dedup := by
  refine (List.perm_ext_iff_of_nodup
      (nodup_keys_innerOf sid _ (innersNodup_groupShapePoints recs))
      (seqsOf recs sid).nodup_dedup).2 fun j => ?_
  rw [List.mem_dedup]
  constructor
  · intro hj
    have h1 : lookupSeq (innerOf (groupShapePoints recs) sid) j ≠ none :=
      fun hn => (lookupSeq_eq_none_iff j _).1 hn hj
    rw [lookupSeq_groupShapePoints] at h1
    by_contra hq
    exact h1 ((lastCoordAt_eq_none_iff sid j recs).2 hq)
  · intro hj
    by_contra hq
    have h1 : lookupSeq (innerOf (groupShapePoints recs) sid) j = none :=
      (lookupSeq_eq_none_iff j _).2 hq
    rw [lookupSeq_groupShapePoints] at h1
    exact (lastCoordAt_eq_none_iff sid j recs).1 h1 hj

theorem shapeCoords_eq_specShapePolyline (recs : List ShapeRecord) (sid : String) :
    shapeCoords (innerOf (groupShapePoints recs) sid) = specShapePolyline recs sid := by
  rw [shapeCoords, specShapePolyline]
  have hsort :
      List.insertionSort (fun a b : Int => a ≤ b)
          ((innerOf (groupShapePoints recs) sid).map Prod.fst) =
        List.insertionSort (fun a b : Int => a ≤ b) (seqsOf recs sid).dedup := by
    refine List.eq_of_perm_of_sorted ?_ (List.sorted_insertionSort _ _)
      (List.sorted_insertionSort _ _)
    exact (List.perm_insertionSort _ _).trans
      ((keys_innerOf_perm_dedup recs sid).trans
        (List.perm_insertionSort _ _).symm)
  rw [hsort]
  exact filterMap_congr_mem _ _ _ fun j _ => lookupSeq_groupShapePoints recs sid j

theorem shapeCoords_length_eq_distinct (recs : List ShapeRecord) (sid : String) :
    (shapeCoords (innerOf (groupShapePoints recs) sid)).length =
      distinctSeqCount recs sid := by
  rw [shapeCoords_length, distinctSeqCount,
    ← (keys_innerOf_perm_dedup recs sid).length_eq, List.length_map]

theorem filter_assembleShapes_of_not_mem (sid : String) :
    ∀ l : List (String × List (Int × (Rat × Rat))),
      sid ∉ l.map Prod.fst →
      (l.filterMap assembleRowOf).filter (fun row => row.shape_id = sid) = [] := by
  intro l
  induction l with
  | nil => intro _; rfl
  | cons e t ih =>
      intro h
      have hne : ¬ e.1 = sid := fun hh => h (by simp [← hh])
      have ht : sid ∉ t.map Prod.fst := fun hh => h (by simp [hh])
      rw [List.filterMap_cons]
      cases hf : assembleRowOf e with
      | none => exact ih ht
      | some row =>
          have hrow : row.shape_id = e.1 := by
            rw [assembleRowOf] at hf
            by_cases h2 : 2 ≤ (shapeCoords e.2).length
            · rw [if_pos h2] at hf
              cases hf; rfl
            · rw [if_neg h2] at hf; cases hf
          rw [List.filter_cons]
          have hb : decide (row.shape_id = sid) = false := by
            simp [hrow, hne]
          rw [hb]
          simp only [Bool.false_eq_true, if_false]
          exact ih ht

theorem filter_assembleShapes_of_mem (sid : String)
    (inner : List (Int × (Rat × Rat))) :
    ∀ l : List (String × List (Int × (Rat × Rat))),
      (l.map Prod.fst).Nodup → (sid, inner) ∈ l →
      2 ≤ (shapeCoords inner).length →
      (l.filterMap assembleRowOf).filter (fun row => row.shape_id = sid) =
        [{ shape_id := sid, geometry := shapeCoords inner, sequence := 1 }] := by
  intro l
  induction l with
  | nil => intro _ h _; cases h
  | cons e t ih =>
      intro hnd hmem h2
      rw [List.map_cons, List.nodup_cons] at hnd
      rcases List.mem_cons.1 hmem with h' | h'
      · have h1 : e.1 = sid := (congrArg Prod.fst h').symm
        have hinner : e.2 = inner := (congrArg Prod.snd h').symm
        have hnt : sid ∉ t.map Prod.fst := h1 ▸ hnd.1
        rw [List.filterMap_cons, assembleRowOf, hinner, if_pos h2,
          List.filter_cons, filter_assembleShapes_of_not_mem sid t hnt]
        simp [h1]
      · have hne : ¬ e.1 = sid := by
          intro hh
          exact hnd.1 (hh ▸ List.mem_map.2 ⟨(sid, inner), h', rfl⟩)
        rw [List.filterMap_cons]
        cases hf : assembleRowOf e with
        | none => exact ih hnd.2 h' h2
        | some row =>
            have hrow : row.shape_id = e.1 := by
              rw [assembleRowOf] at hf
              by_cases hc : 2 ≤ (shapeCoords e.2).length
              · rw [if_pos hc] at hf; cases hf; rfl
              · rw [if_neg hc] at hf; cases hf
            rw [List.filter_cons]
            have hb : decide (row.shape_id = sid) = false := by
              simp [hrow, hne]
            rw [hb]
            simp only [Bool.false_eq_true, if_false]
            exact ih hnd.2 h' h2

/-- C3: the shape assembler keeps, for each shape id and sequence number, the
last coordinate pair seen in the stream (last write wins, no error); a shape
id with fewer than two sequence-distinct points yields no persisted geometry;
a shape id with two or more yields exactly one polyline row whose point list
is the deduplicated coordinates ordered by ascending sequence number, with
point count equal to the distinct sequence count. -/
theorem shape_assembler_correct (recs : List ShapeRecord) (sid : String) :
    (∀ sq, lookupSeq (innerOf (groupShapePoints recs) sid) sq =
      lastCoordAt recs sid sq) ∧
    (distinctSeqCount recs sid < 2 →
      ∀ row ∈ assembleShapes recs, row.shape_id ≠ sid) ∧
    (2 ≤ distinctSeqCount recs sid →
      (assembleShapes recs).filter (fun row => row.shape_id = sid) =
        [{ shape_id := sid, geometry := specShapePolyline recs sid,
           sequence := 1 }] ∧
      (specShapePolyline recs sid).length = distinctSeqCount recs sid) := by
  have hlen := shapeCoords_length_eq_distinct recs sid
  refine ⟨fun sq => lookupSeq_groupShapePoints recs sid sq, ?_, ?_⟩
  · intro hlt row hrow hsid
    rw [assembleShapes, List.mem_filterMap] at hrow
    obtain ⟨e, he, hf⟩ := hrow
    rw [assembleRowOf] at hf
    by_cases h2 : 2 ≤ (shapeCoords e.2).length
    · rw [if_pos h2] at hf
      injection hf with hf
      have he1 : e.1 = sid := by rw [← hsid, ← hf]
      have hmem : (sid, e.2) ∈ groupShapePoints recs := by
        rw [← he1]; exact he
      have hinn : innerOf (groupShapePoints recs) sid = e.2 :=
        innerOf_eq_of_mem sid e.2 _ (nodup_keys_groupShapePoints recs) hmem
      rw [← hinn] at h2
      omega
    · rw [if_neg h2] at hf; cases hf
  · intro h2
    have hne : innerOf (groupShapePoints recs) sid ≠ [] := by
      intro hnil
      have h0 : distinctSeqCount recs sid = 0 := by
        rw [← hlen, hnil]; rfl
      omega
    have hmem := innerOf_mem sid _ hne
    have hfil := filter_assembleShapes_of_mem sid
      (innerOf (groupShapePoints recs) sid) (groupShapePoints recs)
      (nodup_keys_groupShapePoints recs) hmem (by rw [hlen]; exact h2)
    constructor
    · rw [assembleShapes, hfil, shapeCoords_eq_specShapePolyline]
    · rw [← shapeCoords_eq_specShapePolyline recs sid, hlen]

/-- Witness for C3 on the concrete stream `demoShapeRecs`: the duplicated
sequence 2 of shape `SHA` resolves to the last-seen coordinate, `SHA` yields
exactly one two-point polyline ordered by sequence, and the singleton shape
`SHB` yields no row. -/
theorem shape_assembler_correct_witness :
    lookupSeq (innerOf (groupShapePoints demoShapeRecs) "SHA") 2 =
      some (30, 3) ∧
    (assembleShapes demoShapeRecs).filter (fun row => row.shape_id = "SHA") =
      [{ shape_id := "SHA", geometry := [(20, 2), (30, 3)], sequence := 1 }] ∧
    ∀ row ∈ assembleShapes demoShapeRecs, row.shape_id ≠ "SHB" := by
  have h := shape_assembler_correct demoShapeRecs "SHA"
  have hB := shape_assembler_correct demoShapeRecs "SHB"
  refine ⟨(h.1 2).trans (by decide), ?_, fun row hrow => hB.2.1 (by decide) row hrow⟩
  rw [(h.2.2 (by decide)).1]
  decide

end Webmapping
